import Mathlib

/-!
Shallow embedding of the TrafficSync core (src/src/agents.py and the
scenario-orchestration arithmetic of src/src/simulation.py) together with
theorems settling the specification claims.

Conventions of the embedding:
* Python ints are `ℤ` (or `ℕ` where the value is a count that the data model
  declares non-negative); Python float division in the one place it occurs
  (the phase-duration ratio) is exact rational division in `ℚ`, with Python
  `int()` truncation modelled explicitly.
* Python dicts keyed by vehicle id are association lists preserving insertion
  order; assignment to an existing key replaces in place, a new key appends.
* `pd.Timestamp.now()` is an explicit clock argument `now : ℕ` threaded into
  the operations that read the wall clock; elapsed times are `ℕ` differences.
* Fallible operations return a result inductive whose error constructors
  stand for the Python error dict / raised IndexError; the state component of
  the returned pair reflects exactly the mutations performed before the
  error point, as in Python.
-/

namespace TrafficSync

/-- Direction-indexed waiting-vehicle counts: the `waiting_vehicles` dict of
`SignalControlAgent` (agents.py line 15), with the data model's non-negative
counts as `ℕ`. -/
structure WaitingVehicles where
  north : ℕ
  south : ℕ
  east : ℕ
  west : ℕ
deriving DecidableEq, Repr

/-- State of one `SignalControlAgent` (agents.py lines 6-16). The
`intersection_id` and `location` fields are identity/visualization data with
no role in any claim and are omitted from the state record. -/
structure SignalControlAgent where
  current_phase : ℕ
  phase_duration : ℤ
  time_in_phase : ℤ
  emergency_mode : Bool
  waiting_vehicles : WaitingVehicles
  historical_wait_times : List ℕ
deriving DecidableEq, Repr

/-- Python `int()` applied to a non-negative rational: truncation toward
zero, which on non-negative values is the floor. -/
def pyInt (q : ℚ) : ℤ :=
  if 0 ≤ q then ⌊q⌋ else ⌈q⌉

/-- `SignalControlAgent._calculate_optimal_timing` (agents.py lines 74-100):
ratio-based phase-duration recomputation with the smaller-axis total floored
at 1 before dividing, the ratio capped at 3, and the result clamped to at
most 90. -/
def calculate_optimal_timing (a : SignalControlAgent) : SignalControlAgent :=
  let ns_total : ℕ := a.waiting_vehicles.north + a.waiting_vehicles.south
  let ew_total : ℕ := a.waiting_vehicles.east + a.waiting_vehicles.west
  let base_timing : ℤ := 30
  let d : ℤ :=
    if a.current_phase = 0 then
      if ns_total > ew_total then
        pyInt ((base_timing : ℚ) * min 3 ((ns_total : ℚ) / max 1 (ew_total : ℚ)))
      else
        max 15 (base_timing / 2)
    else
      if ew_total > ns_total then
        pyInt ((base_timing : ℚ) * min 3 ((ew_total : ℚ) / max 1 (ns_total : ℚ)))
      else
        max 15 (base_timing / 2)
  { a with phase_duration := min 90 d }

/-- Per-direction totals handed to `process_traffic_data` by the traffic
distributor: the `vehicles["total"]` value for each of the four direction
keys (agents.py lines 21-22). -/
structure DistributedTraffic where
  north_total : ℕ
  south_total : ℕ
  east_total : ℕ
  west_total : ℕ
deriving DecidableEq, Repr

/-- `SignalControlAgent.process_traffic_data` (agents.py lines 18-40):
overwrites the waiting-vehicle counts from the distributed totals, recomputes
timing unless in emergency mode, and appends the total-waiting snapshot to
the 12-entry FIFO history.  The Python return value is a read-only snapshot
of the post-state and is not modelled separately. -/
def process_traffic_data (a : SignalControlAgent) (t : DistributedTraffic) :
    SignalControlAgent :=
  let a1 := { a with waiting_vehicles :=
    ⟨t.north_total, t.south_total, t.east_total, t.west_total⟩ }
  let a2 := if ¬ a1.emergency_mode then calculate_optimal_timing a1 else a1
  let total_waiting := a2.waiting_vehicles.north + a2.waiting_vehicles.south +
    a2.waiting_vehicles.east + a2.waiting_vehicles.west
  let hist := a2.historical_wait_times ++ [total_waiting]
  let hist := if hist.length > 12 then hist.drop 1 else hist
  { a2 with historical_wait_times := hist }

/-- Return value of `get_fairness_metrics` (agents.py lines 132-151): the
two early-exit branches return a dict holding only the fairness index, so
`max_wait` and `avg_wait` are optional. -/
structure FairnessMetrics where
  fairness_index : ℚ
  max_wait : Option ℕ
  avg_wait : Option ℚ
deriving DecidableEq, Repr

/-- `SignalControlAgent.get_fairness_metrics` (agents.py lines 132-151):
Jain's fairness index over the wait-time history, with empty and all-zero
histories defined as perfectly fair. -/
def get_fairness_metrics (a : SignalControlAgent) : FairnessMetrics :=
  if a.historical_wait_times = [] then
    ⟨1, none, none⟩
  else
    let n := a.historical_wait_times.length
    let squared_sum : ℕ := (a.historical_wait_times.map (fun w => w ^ 2)).sum
    let sum_squared : ℕ := a.historical_wait_times.sum ^ 2
    if squared_sum = 0 then
      ⟨1, none, none⟩
    else
      ⟨(sum_squared : ℚ) / ((n : ℚ) * (squared_sum : ℚ)),
        some (a.historical_wait_times.foldl max 0),
        some ((a.historical_wait_times.sum : ℚ) / (n : ℚ))⟩

/-- Status field of an emergency record: the strings "active" / "completed"
written by agents.py lines 178 and 255. -/
inductive EmergencyStatus where
  | active
  | completed
deriving DecidableEq, Repr

/-- One entry of the `active_emergencies` dict (agents.py lines 171-180).
`travel_time` is absent until completion writes it (line 262), so it is an
`Option`.  `current_position` is a Python int and can be driven negative by
the clamp against `len(path) - 1` on an empty path, hence `ℤ`. -/
structure EmergencyRecord where
  path : List (ℤ × ℤ)
  current_position : ℤ
  start_point : ℤ × ℤ
  end_point : ℤ × ℤ
  priority : ℕ
  start_time : ℕ
  status : EmergencyStatus
  intersections_cleared : List (ℤ × ℤ)
  travel_time : Option ℕ := none
deriving DecidableEq, Repr

/-- State of the `EmergencyVehicleAgent` coordinator (agents.py lines
154-159): insertion-ordered dicts of active and completed records plus the
grid size. -/
structure EmergencyVehicleAgent where
  active_emergencies : List (String × EmergencyRecord) := []
  completed_emergencies : List (String × EmergencyRecord) := []
  grid_size : ℕ := 4
deriving DecidableEq, Repr

/-- Python dict lookup on an insertion-ordered association list. -/
def dictLookup (l : List (String × EmergencyRecord)) (k : String) :
    Option EmergencyRecord :=
  (l.find? (fun p => p.1 = k)).map Prod.snd

/-- Python dict assignment `d[k] = v`: replaces the value in place when the
key exists, otherwise appends the new pair. -/
def dictInsert (l : List (String × EmergencyRecord)) (k : String)
    (v : EmergencyRecord) : List (String × EmergencyRecord) :=
  if (l.find? (fun p => p.1 = k)).isSome then
    l.map (fun p => if p.1 = k then (k, v) else p)
  else
    l ++ [(k, v)]

/-- The x-axis leg of `_generate_path` (agents.py lines 209-215): step the x
coordinate one unit toward `ex`, appending each intermediate coordinate. -/
def xLeg (cx y ex : ℤ) : List (ℤ × ℤ) :=
  if h : cx = ex then []
  else if h2 : cx < ex then
    (cx + 1, y) :: xLeg (cx + 1) y ex
  else
    (cx - 1, y) :: xLeg (cx - 1) y ex
termination_by (ex - cx).natAbs
decreasing_by all_goals omega

/-- The y-axis leg of `_generate_path` (agents.py lines 217-223): step the y
coordinate one unit toward `ey` at fixed x. -/
def yLeg (x cy ey : ℤ) : List (ℤ × ℤ) :=
  if h : cy = ey then []
  else if h2 : cy < ey then
    (x, cy + 1) :: yLeg x (cy + 1) ey
  else
    (x, cy - 1) :: yLeg x (cy - 1) ey
termination_by (ey - cy).natAbs
decreasing_by all_goals omega

/-- `EmergencyVehicleAgent._generate_path` (agents.py lines 192-225): move
along the x-axis to the target x, then along the y-axis to the target y. -/
def generate_path (start stop : ℤ × ℤ) : List (ℤ × ℤ) :=
  xLeg start.1 start.2 stop.1 ++ yLeg stop.1 start.2 stop.2

/-- Return value of `dispatch_vehicle` (agents.py lines 185-190). -/
structure DispatchResult where
  vehicle_id : String
  notify_intersections : List (ℤ × ℤ)
  priority : ℕ
  status : String
deriving DecidableEq, Repr

/-- `EmergencyVehicleAgent.dispatch_vehicle` (agents.py lines 165-190):
generates the path, records the emergency under the vehicle id (a dict
assignment, so an existing record under the same id is silently replaced),
and returns the first up-to-3 path coordinates to notify. -/
def dispatch_vehicle (agent : EmergencyVehicleAgent) (vehicle_id : String)
    (start_point end_point : ℤ × ℤ) (priority : ℕ) (now : ℕ) :
    EmergencyVehicleAgent × DispatchResult :=
  let path := generate_path start_point end_point
  let record : EmergencyRecord :=
    { path := path
      current_position := 0
      start_point := start_point
      end_point := end_point
      priority := priority
      start_time := now
      status := .active
      intersections_cleared := []
      travel_time := none }
  let agent' := { agent with
    active_emergencies := dictInsert agent.active_emergencies vehicle_id record }
  let notify_length := min 3 path.length
  (agent', ⟨vehicle_id, path.take notify_length, priority, "dispatched"⟩)

/-- Python list indexing `l[i]`: non-negative indices from the front,
negative indices wrap from the back, and anything out of range raises
IndexError (here `none`). -/
def pyGet (l : List (ℤ × ℤ)) (i : ℤ) : Option (ℤ × ℤ) :=
  if 0 ≤ i then l.get? i.toNat
  else if 0 ≤ i + l.length then l.get? (i + l.length).toNat
  else none

/-- The 3-step look-ahead notification loop of `update_position` (agents.py
lines 245-251): for offsets 1, 2, 3 past the new index, a coordinate not yet
cleared is appended to both the notification list and the cleared list. -/
def lookahead (path : List (ℤ × ℤ)) (new_idx : ℤ)
    (cleared : List (ℤ × ℤ)) : List (ℤ × ℤ) × List (ℤ × ℤ) :=
  [(1 : ℤ), 2, 3].foldl
    (fun acc i =>
      if new_idx + i < (path.length : ℤ) then
        match pyGet path (new_idx + i) with
        | some next_pos =>
          if next_pos ∈ acc.2 then acc
          else (acc.1 ++ [next_pos], acc.2 ++ [next_pos])
        | none => acc
      else acc)
    ([], cleared)

/-- Return value of `update_position` (agents.py lines 227-276).
`notFound` is the `{"error": "Vehicle not found"}` dict; `indexError` is the
IndexError raised by `emergency["path"][new_idx]` on an out-of-range index
(reachable when the path is empty). -/
inductive UpdateResult where
  | notFound
  | indexError
  | completed (vehicle_id : String) (travel_time : ℕ)
  | stillActive (vehicle_id : String) (current_position : ℤ × ℤ)
      (notify_intersections : List (ℤ × ℤ))
deriving DecidableEq, Repr

/-- `EmergencyVehicleAgent.update_position` (agents.py lines 227-276):
advances the record's index by `steps` clamped to `len(path) - 1`, reads the
new coordinate (the IndexError point), runs the look-ahead notification
loop, and on reaching the final index marks the record completed and stores
the elapsed travel time, leaving the record in `active_emergencies`. -/
def update_position (agent : EmergencyVehicleAgent) (vehicle_id : String)
    (steps : ℤ) (now : ℕ) : EmergencyVehicleAgent × UpdateResult :=
  match dictLookup agent.active_emergencies vehicle_id with
  | none => (agent, .notFound)
  | some em =>
    let current_idx := em.current_position
    let new_idx := min (current_idx + steps) ((em.path.length : ℤ) - 1)
    let em1 := { em with current_position := new_idx }
    let store (r : EmergencyRecord) : EmergencyVehicleAgent :=
      { agent with active_emergencies :=
          dictInsert agent.active_emergencies vehicle_id r }
    match pyGet em1.path new_idx with
    | none => (store em1, .indexError)
    | some new_position =>
      let la := lookahead em1.path new_idx em1.intersections_cleared
      let em2 := { em1 with intersections_cleared := la.2 }
      if (em1.path.length : ℤ) - 1 ≤ new_idx then
        let travel_time := now - em2.start_time
        let em3 := { em2 with
          status := EmergencyStatus.completed
          travel_time := some travel_time }
        (store em3, .completed vehicle_id travel_time)
      else
        (store em2, .stillActive vehicle_id new_position la.1)

/-- Return value of `get_metrics` (agents.py lines 278-296): the
no-completions branch returns a dict without the min/max keys, so those are
optional, and `avg_travel_time` is `None` there. -/
structure EmergencyMetrics where
  total_emergencies : ℕ
  completed_emergencies : ℕ
  avg_travel_time : Option ℚ
  min_travel_time : Option ℕ
  max_travel_time : Option ℕ
deriving DecidableEq, Repr

/-- `EmergencyVehicleAgent.get_metrics` (agents.py lines 278-296): counts
and travel-time aggregates over the `completed_emergencies` dict only.  A
record without a `travel_time` key would raise KeyError in Python; the
`getD 0` default is never exercised because every record placed in
`completed_emergencies` would carry one. -/
def get_metrics (agent : EmergencyVehicleAgent) : EmergencyMetrics :=
  if agent.completed_emergencies = [] then
    { total_emergencies := agent.active_emergencies.length
      completed_emergencies := 0
      avg_travel_time := none
      min_travel_time := none
      max_travel_time := none }
  else
    let travel_times : List ℕ :=
      agent.completed_emergencies.map (fun p => p.2.travel_time.getD 0)
    { total_emergencies :=
        agent.active_emergencies.length + agent.completed_emergencies.length
      completed_emergencies := agent.completed_emergencies.length
      avg_travel_time :=
        some ((travel_times.sum : ℚ) / (travel_times.length : ℚ))
      min_travel_time := some (travel_times.foldl min (travel_times.headD 0))
      max_travel_time := some (travel_times.foldl max 0) }

/-- Start and end points of the emergency-comparison scenario
(simulation.py lines 126-127): corner (0,0) to corner
(grid_size-1, grid_size-1). -/
def scenario_points (grid_size : ℕ) : (ℤ × ℤ) × (ℤ × ℤ) :=
  ((0, 0), ((grid_size : ℤ) - 1, (grid_size : ℤ) - 1))

/-- The Manhattan grid distance computed by `run_simulation`
(simulation.py line 138). -/
def scenario_grid_distance (grid_size : ℕ) : ℤ :=
  |(scenario_points grid_size).2.1 - (scenario_points grid_size).1.1| +
    |(scenario_points grid_size).2.2 - (scenario_points grid_size).1.2|

/-- `normal_time = grid_distance * 60` (simulation.py line 141), stored as
`metrics["normal_response_time"]` (line 145). -/
def scenario_normal_time (grid_size : ℕ) : ℤ :=
  scenario_grid_distance grid_size * 60

/-- `emergency_time = grid_distance * 20` (simulation.py line 142). -/
def scenario_emergency_time (grid_size : ℕ) : ℤ :=
  scenario_grid_distance grid_size * 20

/-- The value `run_simulation` stores into
`metrics["emergency_response_time"]` (simulation.py lines 167-174): the
precomputed `emergency_time` both when the vehicle completes during the step
loop (at whatever step) and when the loop exhausts its steps without a
completion. -/
def recorded_emergency_response_time (grid_size : ℕ)
    (completion_step : Option ℕ) : ℤ :=
  match completion_step with
  | some _ => scenario_emergency_time grid_size
  | none => scenario_emergency_time grid_size

/-! ### Helper lemmas about the path legs -/

theorem xLeg_self (cx y : ℤ) : xLeg cx y cx = [] := by
  unfold xLeg
  simp

theorem yLeg_self (x cy : ℤ) : yLeg x cy cy = [] := by
  unfold yLeg
  simp

theorem xLeg_up (n : ℕ) : ∀ cx y : ℤ,
    xLeg cx y (cx + n) = (List.range n).map (fun (i : ℕ) => (cx + (i : ℤ) + 1, y)) := by
  induction n with
  | zero => intro cx y; simpa using xLeg_self cx y
  | succ n ih =>
    intro cx y
    have h1 : cx ≠ cx + ((n : ℕ) + 1 : ℕ) := by push_cast; omega
    have h2 : cx < cx + ((n : ℕ) + 1 : ℕ) := by push_cast; omega
    rw [xLeg, dif_neg h1, dif_pos h2]
    have h3 : cx + (((n : ℕ) + 1 : ℕ) : ℤ) = (cx + 1) + (n : ℤ) := by push_cast; ring
    rw [h3, ih (cx + 1) y, List.range_succ_eq_map, List.map_cons, List.map_map]
    refine List.cons_eq_cons.mpr ⟨by norm_num, List.map_congr_left ?_⟩
    intro i _
    simp only [Function.comp_apply]
    refine Prod.ext ?_ rfl
    push_cast
    ring

theorem xLeg_down (n : ℕ) : ∀ cx y : ℤ,
    xLeg cx y (cx - n) = (List.range n).map (fun (i : ℕ) => (cx - (i : ℤ) - 1, y)) := by
  induction n with
  | zero => intro cx y; simpa using xLeg_self cx y
  | succ n ih =>
    intro cx y
    have h1 : cx ≠ cx - ((n : ℕ) + 1 : ℕ) := by push_cast; omega
    have h2 : ¬ cx < cx - ((n : ℕ) + 1 : ℕ) := by push_cast; omega
    rw [xLeg, dif_neg h1, dif_neg h2]
    have h3 : cx - (((n : ℕ) + 1 : ℕ) : ℤ) = (cx - 1) - (n : ℤ) := by push_cast; ring
    rw [h3, ih (cx - 1) y, List.range_succ_eq_map, List.map_cons, List.map_map]
    refine List.cons_eq_cons.mpr ⟨by norm_num, List.map_congr_left ?_⟩
    intro i _
    simp only [Function.comp_apply]
    refine Prod.ext ?_ rfl
    push_cast
    ring

theorem yLeg_up (n : ℕ) : ∀ x cy : ℤ,
    yLeg x cy (cy + n) = (List.range n).map (fun (i : ℕ) => (x, cy + (i : ℤ) + 1)) := by
  induction n with
  | zero => intro x cy; simpa using yLeg_self x cy
  | succ n ih =>
    intro x cy
    have h1 : cy ≠ cy + ((n : ℕ) + 1 : ℕ) := by push_cast; omega
    have h2 : cy < cy + ((n : ℕ) + 1 : ℕ) := by push_cast; omega
    rw [yLeg, dif_neg h1, dif_pos h2]
    have h3 : cy + (((n : ℕ) + 1 : ℕ) : ℤ) = (cy + 1) + (n : ℤ) := by push_cast; ring
    rw [h3, ih x (cy + 1), List.range_succ_eq_map, List.map_cons, List.map_map]
    refine List.cons_eq_cons.mpr ⟨by norm_num, List.map_congr_left ?_⟩
    intro i _
    simp only [Function.comp_apply]
    refine Prod.ext rfl ?_
    push_cast
    ring

theorem yLeg_down (n : ℕ) : ∀ x cy : ℤ,
    yLeg x cy (cy - n) = (List.range n).map (fun (i : ℕ) => (x, cy - (i : ℤ) - 1)) := by
  induction n with
  | zero => intro x cy; simpa using yLeg_self x cy
  | succ n ih =>
    intro x cy
    have h1 : cy ≠ cy - ((n : ℕ) + 1 : ℕ) := by push_cast; omega
    have h2 : ¬ cy < cy - ((n : ℕ) + 1 : ℕ) := by push_cast; omega
    rw [yLeg, dif_neg h1, dif_neg h2]
    have h3 : cy - (((n : ℕ) + 1 : ℕ) : ℤ) = (cy - 1) - (n : ℤ) := by push_cast; ring
    rw [h3, ih x (cy - 1), List.range_succ_eq_map, List.map_cons, List.map_map]
    refine List.cons_eq_cons.mpr ⟨by norm_num, List.map_congr_left ?_⟩
    intro i _
    simp only [Function.comp_apply]
    refine Prod.ext rfl ?_
    push_cast
    ring

theorem xLeg_closed_form (cx y ex : ℤ) :
    xLeg cx y ex =
      (List.range (ex - cx).natAbs).map
        (fun (i : ℕ) => (cx + (if cx ≤ ex then 1 else -1) * ((i : ℤ) + 1), y)) := by
  by_cases h : cx ≤ ex
  · have hex : ex = cx + ((ex - cx).natAbs : ℤ) := by omega
    rw [if_pos h]
    calc xLeg cx y ex = xLeg cx y (cx + ((ex - cx).natAbs : ℤ)) := by rw [← hex]
      _ = (List.range (ex - cx).natAbs).map (fun (i : ℕ) => (cx + (i : ℤ) + 1, y)) :=
          xLeg_up (ex - cx).natAbs cx y
      _ = _ := List.map_congr_left (fun i _ => by refine Prod.ext ?_ rfl; ring)
  · have hex : ex = cx - ((ex - cx).natAbs : ℤ) := by omega
    rw [if_neg h]
    calc xLeg cx y ex = xLeg cx y (cx - ((ex - cx).natAbs : ℤ)) := by rw [← hex]
      _ = (List.range (ex - cx).natAbs).map (fun (i : ℕ) => (cx - (i : ℤ) - 1, y)) :=
          xLeg_down (ex - cx).natAbs cx y
      _ = _ := List.map_congr_left (fun i _ => by refine Prod.ext ?_ rfl; ring)

theorem yLeg_closed_form (x cy ey : ℤ) :
    yLeg x cy ey =
      (List.range (ey - cy).natAbs).map
        (fun (i : ℕ) => (x, cy + (if cy ≤ ey then 1 else -1) * ((i : ℤ) + 1))) := by
  by_cases h : cy ≤ ey
  · have hey : ey = cy + ((ey - cy).natAbs : ℤ) := by omega
    rw [if_pos h]
    calc yLeg x cy ey = yLeg x cy (cy + ((ey - cy).natAbs : ℤ)) := by rw [← hey]
      _ = (List.range (ey - cy).natAbs).map (fun (i : ℕ) => (x, cy + (i : ℤ) + 1)) :=
          yLeg_up (ey - cy).natAbs x cy
      _ = _ := List.map_congr_left (fun i _ => by refine Prod.ext rfl ?_; ring)
  · have hey : ey = cy - ((ey - cy).natAbs : ℤ) := by omega
    rw [if_neg h]
    calc yLeg x cy ey = yLeg x cy (cy - ((ey - cy).natAbs : ℤ)) := by rw [← hey]
      _ = (List.range (ey - cy).natAbs).map (fun (i : ℕ) => (x, cy - (i : ℤ) - 1)) :=
          yLeg_down (ey - cy).natAbs x cy
      _ = _ := List.map_congr_left (fun i _ => by refine Prod.ext rfl ?_; ring)

theorem xLeg_length (cx y ex : ℤ) : (xLeg cx y ex).length = (ex - cx).natAbs := by
  rw [xLeg_closed_form]
  simp

theorem yLeg_length (x cy ey : ℤ) : (yLeg x cy ey).length = (ey - cy).natAbs := by
  rw [yLeg_closed_form]
  simp

/-! ### Helper lemmas about the dict embedding -/

theorem dictLookup_setKey (l : List (String × EmergencyRecord)) (k : String)
    (v : EmergencyRecord) :
    dictLookup (l.map (fun p => if p.1 = k then (k, v) else p)) k =
      if (l.find? (fun p => p.1 = k)).isSome then some v else none := by
  induction l with
  | nil => simp [dictLookup]
  | cons p t ih =>
    by_cases hp : p.1 = k
    · simp only [List.map_cons, if_pos hp]
      rw [dictLookup, List.find?_cons_of_pos _ (by simp), List.find?_cons_of_pos _ (by simp [hp])]
      simp
    · simp only [List.map_cons, if_neg hp]
      rw [dictLookup, List.find?_cons_of_neg _ (by simp [hp]),
        List.find?_cons_of_neg _ (by simp [hp])]
      exact ih

theorem dictLookup_dictInsert (l : List (String × EmergencyRecord)) (k : String)
    (v : EmergencyRecord) :
    dictLookup (dictInsert l k v) k = some v := by
  unfold dictInsert
  split
  · rename_i h
    rw [dictLookup_setKey, if_pos h]
  · rename_i h
    have hn : l.find? (fun p => p.1 = k) = none := by
      cases hf : l.find? (fun p => p.1 = k)
      · rfl
      · rw [hf] at h; simp at h
    rw [dictLookup, List.find?_append, hn]
    simp

/-! ### Concrete path evaluations (the leg recursions are well-founded, so
they are evaluated through the closed forms) -/

theorem generate_path_00_33 :
    generate_path (0, 0) (3, 3) = [(1, 0), (2, 0), (3, 0), (3, 1), (3, 2), (3, 3)] := by
  rw [generate_path, xLeg_closed_form, yLeg_closed_form]
  decide

theorem generate_path_00_10 : generate_path (0, 0) (1, 0) = [(1, 0)] := by
  rw [generate_path, xLeg_closed_form, yLeg_closed_form]
  decide

theorem generate_path_00_20 : generate_path (0, 0) (2, 0) = [(1, 0), (2, 0)] := by
  rw [generate_path, xLeg_closed_form, yLeg_closed_form]
  decide

theorem generate_path_00_30 : generate_path (0, 0) (3, 0) = [(1, 0), (2, 0), (3, 0)] := by
  rw [generate_path, xLeg_closed_form, yLeg_closed_form]
  decide

theorem generate_path_self (p : ℤ × ℤ) : generate_path p p = [] := by
  rw [generate_path, xLeg_self, yLeg_self]
  rfl

/-! ### Claim theorems -/

/-- C6: for every pair of grid coordinates `(sx, sy)` and `(ex, ey)`, the
generated path is exactly the x-leg (one coordinate at a time from `sx`
toward `ex` at fixed `y = sy`) followed by the y-leg (one coordinate at a
time from `sy` toward `ey` at fixed `x = ex`); each leg is the explicit
one-step-at-a-time sequence, so the path length equals the Manhattan
distance `|ex - sx| + |ey - sy|`; for start `(0,0)` and end `(3,3)` the path
is exactly the 6-step list of 3 x-moves followed by 3 y-moves. -/
theorem claim_C6_path_is_two_leg_manhattan (sx sy ex ey : ℤ) :
    generate_path (sx, sy) (ex, ey) = xLeg sx sy ex ++ yLeg ex sy ey ∧
    xLeg sx sy ex =
      (List.range (ex - sx).natAbs).map
        (fun (i : ℕ) => (sx + (if sx ≤ ex then 1 else -1) * ((i : ℤ) + 1), sy)) ∧
    yLeg ex sy ey =
      (List.range (ey - sy).natAbs).map
        (fun (i : ℕ) => (ex, sy + (if sy ≤ ey then 1 else -1) * ((i : ℤ) + 1))) ∧
    (generate_path (sx, sy) (ex, ey)).length =
      (ex - sx).natAbs + (ey - sy).natAbs ∧
    generate_path (0, 0) (3, 3) =
      [(1, 0), (2, 0), (3, 0), (3, 1), (3, 2), (3, 3)] := by
  refine ⟨rfl, xLeg_closed_form sx sy ex, yLeg_closed_form ex sy ey, ?_,
    by rw [generate_path, xLeg_closed_form, yLeg_closed_form]; decide⟩
  rw [generate_path, List.length_append, xLeg_length, yLeg_length]

/-- C9: in the emergency-comparison scenario with grid size 4 (start
`(0,0)`, end `(3,3)`, Manhattan distance 6), `run_simulation` stores
`normal_response_time = 6 * 60 = 360` seconds and records
`emergency_response_time = 6 * 20 = 120` seconds, the analytically
precomputed value, regardless of the step (if any) at which the simulated
vehicle completes. -/
theorem claim_C9_scenario_response_times :
    scenario_grid_distance 4 = 6 ∧
    scenario_normal_time 4 = 360 ∧
    ∀ completion_step : Option ℕ,
      recorded_emergency_response_time 4 completion_step = 120 := by
  refine ⟨by decide, by decide, ?_⟩
  intro cs
  cases cs <;> rfl

theorem pyGet_nil (i : ℤ) : pyGet [] i = none := by
  unfold pyGet
  simp

/-- C7: `update_position` on a vehicle id that is not in the active set
returns the `{"error": "Vehicle not found"}` result and leaves the
coordinator state (active and completed records included) unchanged. -/
theorem claim_C7_unknown_id_not_found (agent : EmergencyVehicleAgent)
    (vehicle_id : String) (steps : ℤ) (now : ℕ)
    (h : dictLookup agent.active_emergencies vehicle_id = none) :
    update_position agent vehicle_id steps now = (agent, UpdateResult.notFound) := by
  unfold update_position
  rw [h]

/-- Witness for C7 at a concrete input: the empty coordinator has no record
under "x", and updating "x" reports not-found with the state unchanged. -/
theorem claim_C7_witness :
    dictLookup (EmergencyVehicleAgent.active_emergencies {}) "x" = none ∧
    update_position {} "x" 1 0 = ({}, UpdateResult.notFound) :=
  ⟨rfl, claim_C7_unknown_id_not_found {} "x" 1 0 rfl⟩

/-- C10: dispatching with `start = end` generates an empty path and a record
with `current_position = 0`; every subsequent `update_position` for that
vehicle clamps the index to `min(current + steps, -1) = -1` and performs an
out-of-bounds access on the empty path, so the path access hits the error
branch of the total embedding (a raised IndexError in Python) instead of
returning a position or completion. -/
theorem claim_C10_start_eq_end_index_error (start : ℤ × ℤ) (vehicle_id : String)
    (priority now : ℕ) (steps : ℤ) (now2 : ℕ) :
    generate_path start start = [] ∧
    (dictLookup (dispatch_vehicle {} vehicle_id start start priority now).1.active_emergencies
        vehicle_id).map (fun e => (e.path, e.current_position)) = some ([], 0) ∧
    (update_position (dispatch_vehicle {} vehicle_id start start priority now).1
        vehicle_id steps now2).2 = UpdateResult.indexError := by
  have hp := generate_path_self start
  have hactive : (dispatch_vehicle {} vehicle_id start start priority now).1.active_emergencies =
      [(vehicle_id,
        { path := [], current_position := 0, start_point := start,
          end_point := start, priority := priority, start_time := now,
          status := EmergencyStatus.active, intersections_cleared := [],
          travel_time := none })] := by
    simp [dispatch_vehicle, hp, dictInsert]
  have hlook : dictLookup [(vehicle_id,
      ({ path := [], current_position := 0, start_point := start,
         end_point := start, priority := priority, start_time := now,
         status := EmergencyStatus.active, intersections_cleared := [],
         travel_time := none } : EmergencyRecord))] vehicle_id =
      some { path := [], current_position := 0, start_point := start,
             end_point := start, priority := priority, start_time := now,
             status := EmergencyStatus.active, intersections_cleared := [],
             travel_time := none } := by
    rw [dictLookup, List.find?_cons_of_pos _ (by simp)]
    rfl
  refine ⟨hp, ?_, ?_⟩
  · rw [hactive, hlook]
    rfl
  · unfold update_position
    rw [hactive, hlook]
    simp [pyGet_nil]

/-- C2 counterexample: `update_position` with `steps = 0` is not a no-op.
For the vehicle "v" freshly dispatched from (0,0) to (3,0) (path of length
3, nothing cleared yet), the call with `steps = 0` appends the two
look-ahead coordinates to `intersections_cleared`; for the vehicle "w"
dispatched from (0,0) to (1,0) (path of length 1, already at the final
index), the call with `steps = 0` flips `status` from active to
completed. -/
theorem claim_C2_counterexample :
    ((dictLookup (dispatch_vehicle {} "v" (0, 0) (3, 0) 1 0).1.active_emergencies "v").map
        (fun e => e.intersections_cleared) = some []) ∧
    ((dictLookup
        (update_position (dispatch_vehicle {} "v" (0, 0) (3, 0) 1 0).1 "v" 0 5).1.active_emergencies
        "v").map (fun e => e.intersections_cleared) = some [(2, 0), (3, 0)]) ∧
    ((dictLookup (dispatch_vehicle {} "w" (0, 0) (1, 0) 1 0).1.active_emergencies "w").map
        (fun e => e.status) = some EmergencyStatus.active) ∧
    ((dictLookup
        (update_position (dispatch_vehicle {} "w" (0, 0) (1, 0) 1 0).1 "w" 0 5).1.active_emergencies
        "w").map (fun e => e.status) = some EmergencyStatus.completed) := by
  simp only [dispatch_vehicle, generate_path_00_30, generate_path_00_10]
  decide

/-- C2 amended: for an active record whose position index is in range of its
non-empty path, `update_position` with `steps = 0` leaves
`current_position` unchanged (status may still flip to completed at the
final index, and unseen look-ahead coordinates are still appended to
`intersections_cleared`, as the counterexample shows). -/
theorem claim_C2_amended_steps_zero_preserves_position
    (agent : EmergencyVehicleAgent) (vehicle_id : String) (em : EmergencyRecord)
    (now : ℕ)
    (h : dictLookup agent.active_emergencies vehicle_id = some em)
    (h0 : 0 ≤ em.current_position)
    (h1 : em.current_position < (em.path.length : ℤ)) :
    (dictLookup (update_position agent vehicle_id 0 now).1.active_emergencies
        vehicle_id).map (fun e => e.current_position) = some em.current_position := by
  have hmin : min (em.current_position + 0) ((em.path.length : ℤ) - 1) =
      em.current_position := by omega
  obtain ⟨x, hx⟩ : ∃ x, em.path.get? (em.current_position).toNat = some x :=
    ⟨_, List.get?_eq_get (by omega)⟩
  have hpg : pyGet em.path em.current_position = some x := by
    unfold pyGet
    rw [if_pos h0]
    exact hx
  simp only [update_position, h, hmin, hpg]
  split
  · rw [dictLookup_dictInsert]
    rfl
  · rw [dictLookup_dictInsert]
    rfl

/-- Witness for the amended C2 at a concrete input: the vehicle "v" with a
3-step path at index 1 keeps `current_position = 1` under a `steps = 0`
update. -/
theorem claim_C2_witness :
    (dictLookup
        (update_position
          { active_emergencies := [("v",
              { path := [(1, 0), (2, 0), (3, 0)], current_position := 1,
                start_point := (0, 0), end_point := (3, 0), priority := 1,
                start_time := 0, status := EmergencyStatus.active,
                intersections_cleared := [], travel_time := none })] }
          "v" 0 5).1.active_emergencies "v").map (fun e => e.current_position) =
      some 1 := by
  have := claim_C2_amended_steps_zero_preserves_position
    { active_emergencies := [("v",
        { path := [(1, 0), (2, 0), (3, 0)], current_position := 1,
          start_point := (0, 0), end_point := (3, 0), priority := 1,
          start_time := 0, status := EmergencyStatus.active,
          intersections_cleared := [], travel_time := none })] }
    "v"
    { path := [(1, 0), (2, 0), (3, 0)], current_position := 1,
      start_point := (0, 0), end_point := (3, 0), priority := 1,
      start_time := 0, status := EmergencyStatus.active,
      intersections_cleared := [], travel_time := none }
    5 (by decide) (by decide) (by decide)
  exact this

/-- C3 counterexample: `travel_time` is not computed exactly once, and calls
after completion are not no-ops on the record.  The vehicle "v" (path of
length 1) completes at clock 5 with stored `travel_time = 5`; a further
`update_position` at clock 9 overwrites the stored value with 9 and
re-reports completion with the new elapsed time. -/
theorem claim_C3_counterexample :
    (update_position (dispatch_vehicle {} "v" (0, 0) (1, 0) 1 0).1 "v" 1 5).2 =
      UpdateResult.completed "v" 5 ∧
    ((dictLookup (update_position (dispatch_vehicle {} "v" (0, 0) (1, 0) 1 0).1
        "v" 1 5).1.active_emergencies "v").map (fun e => e.travel_time) =
      some (some 5)) ∧
    (update_position (update_position (dispatch_vehicle {} "v" (0, 0) (1, 0) 1 0).1
        "v" 1 5).1 "v" 1 9).2 = UpdateResult.completed "v" 9 ∧
    ((dictLookup (update_position (update_position
        (dispatch_vehicle {} "v" (0, 0) (1, 0) 1 0).1 "v" 1 5).1
        "v" 1 9).1.active_emergencies "v").map (fun e => e.travel_time) =
      some (some 9)) := by
  simp only [dispatch_vehicle, generate_path_00_10]
  decide

/-- C3 amended: for an active-set record with a non-empty path, in-range
index and non-negative step count, `update_position` clamps the index to
the final path index; whenever the step reaches or exceeds the final index
it sets status to completed, stores the elapsed time since dispatch as
`travel_time` (overwriting any previously stored value, so the travel time
is recomputed at every such call rather than exactly once), and returns
completion; and a record whose status is already completed never returns to
active. -/
theorem claim_C3_amended_clamp_and_completion
    (agent : EmergencyVehicleAgent) (vehicle_id : String) (em : EmergencyRecord)
    (steps : ℤ) (now : ℕ)
    (h : dictLookup agent.active_emergencies vehicle_id = some em)
    (h0 : 0 ≤ em.current_position)
    (h1 : em.current_position < (em.path.length : ℤ))
    (hs : 0 ≤ steps) :
    ((dictLookup (update_position agent vehicle_id steps now).1.active_emergencies
        vehicle_id).map (fun e => e.current_position) =
      some (min (em.current_position + steps) ((em.path.length : ℤ) - 1))) ∧
    ((em.path.length : ℤ) - 1 ≤ em.current_position + steps →
      ((dictLookup (update_position agent vehicle_id steps now).1.active_emergencies
          vehicle_id).map (fun e => e.status) = some EmergencyStatus.completed) ∧
      ((dictLookup (update_position agent vehicle_id steps now).1.active_emergencies
          vehicle_id).map (fun e => e.travel_time) =
        some (some (now - em.start_time))) ∧
      (update_position agent vehicle_id steps now).2 =
        UpdateResult.completed vehicle_id (now - em.start_time)) ∧
    (em.status = EmergencyStatus.completed →
      (dictLookup (update_position agent vehicle_id steps now).1.active_emergencies
          vehicle_id).map (fun e => e.status) = some EmergencyStatus.completed) := by
  obtain ⟨x, hx⟩ : ∃ x,
      em.path.get? (min (em.current_position + steps)
        ((em.path.length : ℤ) - 1)).toNat = some x :=
    ⟨_, List.get?_eq_get (by omega)⟩
  have hpg : pyGet em.path
      (min (em.current_position + steps) ((em.path.length : ℤ) - 1)) = some x := by
    unfold pyGet
    rw [if_pos (by omega)]
    exact hx
  simp only [update_position, h, hpg]
  split
  · rename_i hcond
    refine ⟨?_, fun _ => ⟨?_, ?_, rfl⟩, fun _ => ?_⟩ <;>
      · rw [dictLookup_dictInsert]
        rfl
  · rename_i hcond
    refine ⟨?_, fun hc => absurd hc (by omega), fun hst => ?_⟩
    · rw [dictLookup_dictInsert]
      rfl
    · rw [dictLookup_dictInsert]
      simp [hst]

/-- A one-record coordinator used to witness the amended C2/C3 theorems. -/
def sampleRecord : EmergencyRecord :=
  { path := [(1, 0)], current_position := 0, start_point := (0, 0),
    end_point := (1, 0), priority := 1, start_time := 2,
    status := EmergencyStatus.active, intersections_cleared := [],
    travel_time := none }

/-- A coordinator holding `sampleRecord` under id "v". -/
def sampleAgent : EmergencyVehicleAgent :=
  { active_emergencies := [("v", sampleRecord)] }

/-- Witness for the amended C3 at a concrete input: the one-step vehicle
completes at clock 5, with position clamped to index 0 and travel time
5 - 2 = 3. -/
theorem claim_C3_witness :
    ((dictLookup (update_position sampleAgent "v" 1 5).1.active_emergencies
        "v").map (fun e => e.current_position) =
      some (min (sampleRecord.current_position + 1)
        ((sampleRecord.path.length : ℤ) - 1))) ∧
    ((sampleRecord.path.length : ℤ) - 1 ≤ sampleRecord.current_position + 1 →
      ((dictLookup (update_position sampleAgent "v" 1 5).1.active_emergencies
          "v").map (fun e => e.status) = some EmergencyStatus.completed) ∧
      ((dictLookup (update_position sampleAgent "v" 1 5).1.active_emergencies
          "v").map (fun e => e.travel_time) =
        some (some (5 - sampleRecord.start_time))) ∧
      (update_position sampleAgent "v" 1 5).2 =
        UpdateResult.completed "v" (5 - sampleRecord.start_time)) ∧
    (sampleRecord.status = EmergencyStatus.completed →
      (dictLookup (update_position sampleAgent "v" 1 5).1.active_emergencies
          "v").map (fun e => e.status) = some EmergencyStatus.completed) :=
  claim_C3_amended_clamp_and_completion sampleAgent "v" sampleRecord 1 5
    (by decide) (by decide) (by decide) (by decide)

/-- C5 counterexample: a second `dispatch_vehicle` under the already-active
id "v" does not fail: it returns the same "dispatched" status and silently
replaces the existing active record (new path, priority and start time). -/
theorem claim_C5_counterexample :
    (dispatch_vehicle (dispatch_vehicle {} "v" (0, 0) (1, 0) 1 0).1
        "v" (0, 0) (2, 0) 2 3).2.status = "dispatched" ∧
    dictLookup (dispatch_vehicle (dispatch_vehicle {} "v" (0, 0) (1, 0) 1 0).1
        "v" (0, 0) (2, 0) 2 3).1.active_emergencies "v" =
      some { path := [(1, 0), (2, 0)], current_position := 0,
             start_point := (0, 0), end_point := (2, 0), priority := 2,
             start_time := 3, status := EmergencyStatus.active,
             intersections_cleared := [], travel_time := none } := by
  simp only [dispatch_vehicle, generate_path_00_10, generate_path_00_20]
  decide

/-- C5 amended: dispatching under an id that is already active does not
reject the duplicate: it returns "dispatched" and overwrites the active
record with a fresh one for the new route. -/
theorem claim_C5_amended_duplicate_overwrites
    (agent : EmergencyVehicleAgent) (vehicle_id : String)
    (start_point end_point : ℤ × ℤ) (priority now : ℕ)
    (_h : (dictLookup agent.active_emergencies vehicle_id).isSome) :
    (dispatch_vehicle agent vehicle_id start_point end_point priority now).2.status =
      "dispatched" ∧
    dictLookup (dispatch_vehicle agent vehicle_id start_point end_point
        priority now).1.active_emergencies vehicle_id =
      some { path := generate_path start_point end_point, current_position := 0,
             start_point := start_point, end_point := end_point,
             priority := priority, start_time := now,
             status := EmergencyStatus.active, intersections_cleared := [],
             travel_time := none } := by
  exact ⟨rfl, dictLookup_dictInsert _ _ _⟩

/-- Witness for the amended C5 at a concrete input: "v" is active in
`sampleAgent`, and re-dispatching "v" reports "dispatched" and overwrites
the record. -/
theorem claim_C5_witness :
    (dictLookup sampleAgent.active_emergencies "v").isSome ∧
    ((dispatch_vehicle sampleAgent "v" (0, 0) (3, 0) 2 7).2.status =
      "dispatched" ∧
    dictLookup (dispatch_vehicle sampleAgent "v" (0, 0) (3, 0)
        2 7).1.active_emergencies "v" =
      some { path := generate_path (0, 0) (3, 0), current_position := 0,
             start_point := (0, 0), end_point := (3, 0),
             priority := 2, start_time := 7,
             status := EmergencyStatus.active, intersections_cleared := [],
             travel_time := none }) :=
  ⟨by decide,
    claim_C5_amended_duplicate_overwrites sampleAgent "v" (0, 0) (3, 0) 2 7
      (by decide)⟩

/-- C4: evaluation at the failing input.  After the vehicle "v" is
dispatched and completes (the `update_position` call at clock 5 reports
completion and the record's status is completed), `get_metrics` still
reports zero completed emergencies and a null average travel time: no code
path ever moves a record into `completed_emergencies`, so the
completed-records branch of `get_metrics` is unreachable. -/
theorem claim_C4_metrics_never_see_completions :
    (update_position (dispatch_vehicle {} "v" (0, 0) (1, 0) 1 0).1 "v" 1 5).2 =
      UpdateResult.completed "v" 5 ∧
    ((dictLookup (update_position (dispatch_vehicle {} "v" (0, 0) (1, 0) 1 0).1
        "v" 1 5).1.active_emergencies "v").map (fun e => e.status) =
      some EmergencyStatus.completed) ∧
    (update_position (dispatch_vehicle {} "v" (0, 0) (1, 0) 1 0).1
        "v" 1 5).1.completed_emergencies = [] ∧
    get_metrics (update_position (dispatch_vehicle {} "v" (0, 0) (1, 0) 1 0).1
        "v" 1 5).1 =
      { total_emergencies := 1, completed_emergencies := 0,
        avg_travel_time := none, min_travel_time := none,
        max_travel_time := none } := by
  simp only [dispatch_vehicle, generate_path_00_10]
  decide

/-- The ratio branch of the phase-duration recomputation: when the heavier
axis strictly exceeds the lighter one, `int(30 * min(3, big / max(1,
small)))` lies in [30, 90] (and so in [15, 90]). -/
theorem pyInt_ratio_bounds (big small : ℕ) (hgt : small < big) :
    15 ≤ pyInt ((30 : ℚ) * min 3 ((big : ℚ) / max 1 (small : ℚ))) ∧
    pyInt ((30 : ℚ) * min 3 ((big : ℚ) / max 1 (small : ℚ))) ≤ 90 := by
  have hd : (0 : ℚ) < max 1 (small : ℚ) := lt_max_of_lt_left one_pos
  have hle : max 1 (small : ℚ) ≤ (big : ℚ) := by
    rcases Nat.eq_zero_or_pos small with hz | hpos
    · subst hz
      simp only [Nat.cast_zero]
      rw [max_eq_left (by norm_num)]
      exact_mod_cast hgt
    · rw [max_eq_right (by exact_mod_cast hpos)]
      exact_mod_cast le_of_lt hgt
  have h1 : (1 : ℚ) ≤ min 3 ((big : ℚ) / max 1 (small : ℚ)) :=
    le_min (by norm_num) ((one_le_div hd).mpr hle)
  have h3 : min 3 ((big : ℚ) / max 1 (small : ℚ)) ≤ 3 := min_le_left _ _
  have hq0 : (0 : ℚ) ≤ 30 * min 3 ((big : ℚ) / max 1 (small : ℚ)) := by linarith
  rw [pyInt, if_pos hq0]
  constructor
  · refine le_trans (by norm_num : (15 : ℤ) ≤ 30) (Int.le_floor.mpr ?_)
    push_cast
    linarith
  · calc ⌊(30 : ℚ) * min 3 ((big : ℚ) / max 1 (small : ℚ))⌋
        ≤ ⌊(90 : ℚ)⌋ := Int.floor_le_floor (by linarith)
      _ = 90 := by norm_num

/-- The recomputed phase duration of `_calculate_optimal_timing` always lies
in [15, 90], for every waiting-vehicle mapping and either phase. -/
theorem calculate_optimal_timing_bounds (a : SignalControlAgent) :
    15 ≤ (calculate_optimal_timing a).phase_duration ∧
    (calculate_optimal_timing a).phase_duration ≤ 90 := by
  unfold calculate_optimal_timing
  refine ⟨le_min (by norm_num) ?_, min_le_left _ _⟩
  split_ifs with h1 h2 h3
  · exact (pyInt_ratio_bounds _ _ h2).1
  · exact le_max_left _ _
  · exact (pyInt_ratio_bounds _ _ h3).1
  · exact le_max_left _ _

/-- C1: for every non-negative waiting-vehicle mapping and either phase,
the recomputation performed by `process_traffic_data` outside emergency
mode yields an integer `phase_duration` with 15 ≤ duration ≤ 90: the ratio
is capped at 3, the lighter axis is floored at 1 before dividing, and the
result is clamped to at most 90 and never set below 15. -/
theorem claim_C1_phase_duration_in_bounds (a : SignalControlAgent)
    (t : DistributedTraffic) (h : a.emergency_mode = false) :
    15 ≤ (process_traffic_data a t).phase_duration ∧
    (process_traffic_data a t).phase_duration ≤ 90 := by
  unfold process_traffic_data
  simp only [h, Bool.false_eq_true, not_false_eq_true, if_true, ite_true]
  exact calculate_optimal_timing_bounds _

/-- Witness for C1 at a concrete input: a non-emergency agent at phase 0
fed the totals north 10, south 10, east 1, west 1. -/
theorem claim_C1_witness :
    SignalControlAgent.emergency_mode
      { current_phase := 0, phase_duration := 30, time_in_phase := 0,
        emergency_mode := false, waiting_vehicles := ⟨0, 0, 0, 0⟩,
        historical_wait_times := [] } = false ∧
    (15 ≤ (process_traffic_data
        { current_phase := 0, phase_duration := 30, time_in_phase := 0,
          emergency_mode := false, waiting_vehicles := ⟨0, 0, 0, 0⟩,
          historical_wait_times := [] } ⟨10, 10, 1, 1⟩).phase_duration ∧
      (process_traffic_data
        { current_phase := 0, phase_duration := 30, time_in_phase := 0,
          emergency_mode := false, waiting_vehicles := ⟨0, 0, 0, 0⟩,
          historical_wait_times := [] } ⟨10, 10, 1, 1⟩).phase_duration ≤ 90) :=
  ⟨rfl, claim_C1_phase_duration_in_bounds _ ⟨10, 10, 1, 1⟩ rfl⟩

/-! ### Cauchy-Schwarz over lists, for the Jain fairness index -/

theorem list_cross_bound (a : ℚ) (l : List ℚ) :
    2 * a * l.sum ≤ l.length * a ^ 2 + (l.map (fun x => x ^ 2)).sum := by
  induction l with
  | nil => simp
  | cons w t ih =>
    simp only [List.sum_cons, List.map_cons, List.length_cons]
    push_cast
    nlinarith [sq_nonneg (a - w), ih]

theorem list_sq_sum_le (l : List ℚ) :
    l.sum ^ 2 ≤ l.length * (l.map (fun x => x ^ 2)).sum := by
  induction l with
  | nil => simp
  | cons w t ih =>
    simp only [List.sum_cons, List.map_cons, List.length_cons]
    push_cast
    nlinarith [list_cross_bound w t, ih]

theorem nat_list_sq_sum_le (l : List ℕ) :
    ((l.sum : ℚ)) ^ 2 ≤ (l.length : ℚ) * (((l.map (fun w => w ^ 2)).sum : ℕ) : ℚ) := by
  have key := list_sq_sum_le (l.map (fun (w : ℕ) => (w : ℚ)))
  have h1 : (l.map (fun (w : ℕ) => (w : ℚ))).sum = (l.sum : ℚ) :=
    (Nat.cast_list_sum l).symm
  have h2 : ((l.map (fun (w : ℕ) => (w : ℚ))).map (fun x => x ^ 2)).sum =
      (((l.map (fun w => w ^ 2)).sum : ℕ) : ℚ) := by
    rw [List.map_map, Nat.cast_list_sum, List.map_map]
    congr 1
  rw [h1, h2, List.length_map] at key
  exact key

/-- C8: over every history of at most 12 non-negative total-waiting
snapshots, the fairness index returned by `get_fairness_metrics` lies in
(0, 1]; it is exactly 1 for an empty history, for an all-zero history, and
more generally whenever all snapshots are equal. -/
theorem claim_C8_fairness_index (a : SignalControlAgent)
    (_hlen : a.historical_wait_times.length ≤ 12) :
    (0 < (get_fairness_metrics a).fairness_index ∧
      (get_fairness_metrics a).fairness_index ≤ 1) ∧
    (a.historical_wait_times = [] →
      (get_fairness_metrics a).fairness_index = 1) ∧
    ((∀ w ∈ a.historical_wait_times, w = 0) →
      (get_fairness_metrics a).fairness_index = 1) ∧
    (∀ c, (∀ w ∈ a.historical_wait_times, w = c) →
      (get_fairness_metrics a).fairness_index = 1) := by
  by_cases hl : a.historical_wait_times = []
  · refine ⟨⟨?_, ?_⟩, ?_, ?_, ?_⟩ <;> simp [get_fairness_metrics, hl]
  · by_cases hq : (a.historical_wait_times.map (fun w => w ^ 2)).sum = 0
    · refine ⟨⟨?_, ?_⟩, ?_, ?_, ?_⟩ <;> simp [get_fairness_metrics, hl, hq]
    · have hn : 0 < a.historical_wait_times.length := List.length_pos.mpr hl
      have hQpos : 0 < (a.historical_wait_times.map (fun w => w ^ 2)).sum :=
        Nat.pos_of_ne_zero hq
      have hS : a.historical_wait_times.sum ≠ 0 := by
        intro h0
        apply hq
        have hall := List.sum_eq_zero_iff.mp h0
        rw [List.sum_eq_zero_iff]
        intro x hx
        obtain ⟨w, hw, rfl⟩ := List.mem_map.mp hx
        simp [hall w hw]
      have hfi : (get_fairness_metrics a).fairness_index =
          ((a.historical_wait_times.sum ^ 2 : ℕ) : ℚ) /
            ((a.historical_wait_times.length : ℚ) *
              (((a.historical_wait_times.map (fun w => w ^ 2)).sum : ℕ) : ℚ)) := by
        simp only [get_fairness_metrics, if_neg hl, if_neg hq]
      have hnQ : (0 : ℚ) < (a.historical_wait_times.length : ℚ) := by
        exact_mod_cast hn
      have hQQ : (0 : ℚ) <
          (((a.historical_wait_times.map (fun w => w ^ 2)).sum : ℕ) : ℚ) := by
        exact_mod_cast hQpos
      have hdenom : (0 : ℚ) < (a.historical_wait_times.length : ℚ) *
          (((a.historical_wait_times.map (fun w => w ^ 2)).sum : ℕ) : ℚ) :=
        mul_pos hnQ hQQ
      have hSpos : (0 : ℚ) < (a.historical_wait_times.sum : ℚ) := by
        exact_mod_cast Nat.pos_of_ne_zero hS
      refine ⟨⟨?_, ?_⟩, fun he => absurd he hl, ?_, ?_⟩
      · rw [hfi]
        refine div_pos ?_ hdenom
        have : (0 : ℚ) < (a.historical_wait_times.sum : ℚ) ^ 2 := pow_pos hSpos 2
        exact_mod_cast this
      · rw [hfi, div_le_one hdenom]
        exact_mod_cast nat_list_sq_sum_le a.historical_wait_times
      · intro hz
        exfalso
        apply hq
        rw [List.sum_eq_zero_iff]
        intro x hx
        obtain ⟨w, hw, rfl⟩ := List.mem_map.mp hx
        simp [hz w hw]
      · intro c hall
        have hc : c ≠ 0 := by
          intro hc0
          apply hq
          rw [List.sum_eq_zero_iff]
          intro x hx
          obtain ⟨w, hw, rfl⟩ := List.mem_map.mp hx
          simp [hall w hw, hc0]
        have hsum : a.historical_wait_times.sum =
            a.historical_wait_times.length * c := by
          rw [List.sum_eq_card_nsmul _ c hall, smul_eq_mul]
        have hsq : (a.historical_wait_times.map (fun w => w ^ 2)).sum =
            a.historical_wait_times.length * c ^ 2 := by
          rw [List.sum_eq_card_nsmul (a.historical_wait_times.map (fun w => w ^ 2))
            (c ^ 2) ?_, List.length_map, smul_eq_mul]
          intro x hx
          obtain ⟨w, hw, rfl⟩ := List.mem_map.mp hx
          rw [hall w hw]
        rw [hfi, hsum, hsq]
        have hnQ0 : ((a.historical_wait_times.length : ℚ)) ≠ 0 := hnQ.ne'
        have hcQ : ((c : ℚ)) ≠ 0 := by exact_mod_cast hc
        push_cast
        field_simp
        ring
/-- A signal agent with a short, uniform wait-time history, used to witness
the fairness-index theorem. -/
def sampleSignalAgent : SignalControlAgent :=
  { current_phase := 0, phase_duration := 30, time_in_phase := 0,
    emergency_mode := false, waiting_vehicles := ⟨0, 0, 0, 0⟩,
    historical_wait_times := [5, 5, 5] }

/-- Witness for C8 at a concrete input: the history [5, 5, 5] of length
3 ≤ 12 has fairness index in (0, 1], equal to 1 since all entries are
equal. -/
theorem claim_C8_witness :
    sampleSignalAgent.historical_wait_times.length ≤ 12 ∧
    ((0 < (get_fairness_metrics sampleSignalAgent).fairness_index ∧
      (get_fairness_metrics sampleSignalAgent).fairness_index ≤ 1) ∧
    (sampleSignalAgent.historical_wait_times = [] →
      (get_fairness_metrics sampleSignalAgent).fairness_index = 1) ∧
    ((∀ w ∈ sampleSignalAgent.historical_wait_times, w = 0) →
      (get_fairness_metrics sampleSignalAgent).fairness_index = 1) ∧
    (∀ c, (∀ w ∈ sampleSignalAgent.historical_wait_times, w = c) →
      (get_fairness_metrics sampleSignalAgent).fairness_index = 1)) :=
  ⟨by decide, claim_C8_fairness_index sampleSignalAgent (by decide)⟩

end TrafficSync
